import Mathlib

/-!
Verification of the EMEA feed relay classification pipeline
(`emea_feed_relay.py`): relevance gating, scoring, priority derivation,
deduplication and replay timestamp assignment.

Shallow embedding conventions:
* Regular-expression matches over the joined title+summary text are
  abstracted as boolean feature flags (`TextFeatures`): each flag records
  whether the corresponding compiled pattern group of the source matches
  the text.  The arithmetic and control flow of the scoring and pipeline
  functions are translated literally from the source.
* Python `float` timestamps are modelled as rationals (`ℚ`), Python `int`
  as `ℤ`.
* `time.time()` (read inside `recency_bonus` via `now_ts`) is modelled as
  an explicit ambient `clock` argument: it stands for the value the wall
  clock returns at call time and is *not* an argument of the Python
  function being modelled.
* `hashlib.sha256(title + '|' + link)` is modelled by the string
  `title ++ "|" ++ link` itself (the digest is injective on the inputs the
  pipeline feeds it, per the spec's "stable hash").
-/

set_option maxRecDepth 4096

-- ------------------------------------------------------------------
-- Config constants (emea_feed_relay.py lines 181-191)
-- ------------------------------------------------------------------

def GEO_STRICT : Bool := true

def P1_THRESHOLD : ℤ := 80

def P2_THRESHOLD : ℤ := 50

def P3_THRESHOLD : ℤ := 30

def MIN_SCORE_TO_INCLUDE : ℤ := 25

def REQUIRE_METEO_ORANGE : Bool := true

-- ------------------------------------------------------------------
-- Feed kinds ('meteoalarm' | 'alerts' | 'news')
-- ------------------------------------------------------------------

inductive FeedKind where
  | meteoalarm
  | alerts
  | news
deriving DecidableEq, Repr

-- ------------------------------------------------------------------
-- Regex-match feature abstraction for one text
-- ------------------------------------------------------------------

/-- Boolean results of the source's compiled pattern groups on one joined
title+summary text, plus the parsed numeric quantity matches.  Each field
corresponds to `any(rx.search(t) for rx in GROUP_RE)` in the source; the
quantity lists hold, for each `finditer` match of the corresponding
casualty/injury/arrest regex, the parse result of its captured number
(`none` models an unparsable capture, whose `int(...)` raises and is
skipped by the `except` clause). -/
structure TextFeatures where
  exclude : Bool := false        -- EXCL_RE (sport/entertainment/awards noise)
  terror : Bool := false         -- TERROR_RE
  violence : Bool := false       -- VIOLENCE_RE
  casualties : Bool := false     -- CASUALTIES_RE
  protest : Bool := false        -- PROTEST_RE
  protestScale : Bool := false   -- PROTEST_SCALE_RE
  enforcement : Bool := false    -- ENFORCEMENT_RE
  govMeasures : Bool := false    -- GOV_MEASURES_RE
  evacuation : Bool := false     -- EVACUATION_RE
  transHard : Bool := false      -- TRANS_HARD_RE
  transSoft : Bool := false      -- TRANS_SOFT_RE
  cyber : Bool := false          -- CYBER_RE
  meteoRed : Bool := false       -- METEO_RED_RE
  meteoOrange : Bool := false    -- METEO_ORANGE_RE
  meteoYellow : Bool := false    -- METEO_YELLOW_RE
  hazards : Bool := false        -- HAZARDS_RE
  floodEqAft : Bool := false     -- re.search("flood|earthquake|aftershock", t)
  watchlist : Bool := false      -- WATCHLIST_RE
  watchlistHubs : Bool := false  -- WATCHLIST_HUBS_RE
  emeaAllow : Bool := false      -- EMEA_ALLOW_RE
  nonEmeaBlock : Bool := false   -- NON_EMEA_RE
  usPolitics : Bool := false     -- US_POLITICS_RE
  usStates : Bool := false       -- US_STATES_RE
  usBigCities : Bool := false    -- US_BIG_CITIES_RE
  urgentTerm : Bool := false     -- URGENT_RE
  qKilled : List (Option ℕ) := []    -- "N killed|dead|deaths|fatalities"
  qInjured : List (Option ℕ) := []   -- "N injured|wounded|casualties"
  qArrested : List (Option ℕ) := []  -- "N arrests|detained|detentions"
deriving DecidableEq, Repr

-- ------------------------------------------------------------------
-- Scoring model (emea_feed_relay.py lines 224-362)
-- ------------------------------------------------------------------

/-- `recency_bonus(published_ts)` (lines 227-231).  The Python function
reads the wall clock via `now_ts()`; `clock` models that ambient read. -/
def recencyBonus (publishedTs clock : ℚ) : ℤ :=
  let hours : ℚ := (clock - publishedTs) / 3600
  if hours ≤ 6 then 10
  else if hours ≤ 24 then 5
  else 0

/-- `meteo_severity(text)` (lines 289-294). -/
def meteoSeverity (f : TextFeatures) : ℤ :=
  if f.meteoRed then 70
  else if f.meteoOrange then 40
  else if f.meteoYellow then (if REQUIRE_METEO_ORANGE then 0 else 15)
  else 0

/-- `watchlist_bonus(text)` (lines 296-299): `WATCHLIST_RE + WATCHLIST_HUBS_RE`. -/
def watchlistBonus (f : TextFeatures) : ℤ :=
  if f.watchlist || f.watchlistHubs then 30 else 0

/-- One quantity match's contribution: `min(cap, max(5, n * mult))`,
or nothing when the captured number fails to parse (lines 339-344). -/
def qContrib (mult cap : ℤ) (q : Option ℕ) : ℤ :=
  match q with
  | none => 0
  | some n => min cap (max 5 ((n : ℤ) * mult))

/-- The summed quantity boosts of the three `(rx, mult, cap)` rows
(lines 333-344): killed ×4 cap 80, injured ×2 cap 55, arrested ×1 cap 45. -/
def qBoost (f : TextFeatures) : ℤ :=
  (f.qKilled.map (qContrib 4 80)).sum
    + (f.qInjured.map (qContrib 2 55)).sum
    + (f.qArrested.map (qContrib 1 45)).sum

/-- `incident_score(text, feed_kind, published_ts, source)` (lines 301-356).
`srcTrusted` is the result of the trusted-publisher regex on `source`
(line 351, including the truthiness test `source and ...`); `clock` is the
ambient wall-clock value read by `recency_bonus`. -/
def incidentScore (f : TextFeatures) (kind : FeedKind) (publishedTs : ℚ)
    (srcTrusted : Bool) (clock : ℚ) : ℤ × Bool :=
  let score : ℤ := 0
  let score := score + (if f.terror then 90 else 0)
  let score := score + (if f.violence then 85 else 0)
  let score := score + (if f.casualties then 35 else 0)
  let score := score + (if f.protest then 55 else 0)
  let score := score + (if f.protestScale then 35 else 0)
  let score := score + (if f.enforcement then 30 else 0)
  let score := score + (if f.govMeasures then 40 else 0)
  let score := score + (if f.evacuation then 50 else 0)
  let score := score + (if f.transHard then 70 else 0)
  let score := score + (if f.transSoft then 25 else 0)
  let score := score + (if f.cyber then 50 else 0)
  let metSev := meteoSeverity f
  if kind = FeedKind.meteoalarm ∧ metSev < 40 ∧ REQUIRE_METEO_ORANGE then
    (0, false)  -- drop yellow-only meteoalarm (lines 326-327)
  else
    let score := if kind = FeedKind.meteoalarm ∨ f.hazards then
        score + metSev + (if f.floodEqAft then 20 else 0)
      else score
    let score := score + qBoost f
    let score := score + watchlistBonus f
    let score := score + recencyBonus publishedTs clock
    let score := score + (if srcTrusted then 8 else 0)
    let urgent := f.urgentTerm || decide (score ≥ P1_THRESHOLD + 10)
    (score, urgent)

/-- `to_priority(score)` (lines 358-362). -/
def to_priority (score : ℤ) : ℤ :=
  if score ≥ P1_THRESHOLD then 1
  else if score ≥ P2_THRESHOLD then 2
  else if score ≥ P3_THRESHOLD then 3
  else 0

/-- Rank of a numeric priority in the ordinal order `p1 > p2 > p3 > none`
(numeric code 1 is the highest tier, 0 means "none"). -/
def prioRank (p : ℤ) : ℕ :=
  if p = 1 then 3
  else if p = 2 then 2
  else if p = 3 then 1
  else 0

/-- The accumulated base score of the eleven unconditional signal groups
(lines 306-322), in source order and association. -/
def baseScore (f : TextFeatures) : ℤ :=
  0 + (if f.terror then 90 else 0) + (if f.violence then 85 else 0)
    + (if f.casualties then 35 else 0) + (if f.protest then 55 else 0)
    + (if f.protestScale then 35 else 0) + (if f.enforcement then 30 else 0)
    + (if f.govMeasures then 40 else 0) + (if f.evacuation then 50 else 0)
    + (if f.transHard then 70 else 0) + (if f.transSoft then 25 else 0)
    + (if f.cyber then 50 else 0)

/-- The base score after the weather/hazard step (lines 328-331). -/
def hazardScore (f : TextFeatures) (kind : FeedKind) : ℤ :=
  if kind = FeedKind.meteoalarm ∨ f.hazards then
    baseScore f + meteoSeverity f + (if f.floodEqAft then 20 else 0)
  else baseScore f

/-- The full accumulated score of a non-vetoed entry: base and hazard
score, quantity boosts, watchlist, recency and trusted-publisher nudges
(lines 333-353). -/
def totalScore (f : TextFeatures) (kind : FeedKind) (ts : ℚ) (src : Bool) (clock : ℚ) : ℤ :=
  hazardScore f kind + qBoost f + watchlistBonus f + recencyBonus ts clock
    + (if src then 8 else 0)

-- ------------------------------------------------------------------
-- Title normalisation for de-duplication (normalize_title, lines 234-243)
-- ------------------------------------------------------------------

/-- Python `\s` whitespace class (ASCII range). -/
def isPyWS (c : Char) : Bool :=
  c == ' ' || c == '\t' || c == '\n' || c == '\r' || c == '\x0b' || c == '\x0c'

/-- Alternation words of the wire-prefix pattern
`^(breaking|live|update|updated|just in|watch|video):\s+`, in source order. -/
def NORM_WIRE_WORDS : List (List Char) :=
  ["breaking", "live", "update", "updated", "just in", "watch", "video"].map
    String.toList

/-- Try to strip one wire-prefix word `w` followed by `:` and `\s+` from the
front of `s`; `none` when the pattern does not match with this word. -/
def stripTagMatch (w s : List Char) : Option (List Char) :=
  if (w ++ [':']).isPrefixOf s then
    match s.drop (w.length + 1) with
    | [] => none
    | c :: cs => if isPyWS c then some ((c :: cs).dropWhile isPyWS) else none
  else none

/-- `re.sub(r"^(breaking|live|update|updated|just in|watch|video):\s+", "", s)`:
the anchor `^` (no MULTILINE) allows at most one substitution, and the
alternation resolves to the unique word that is followed by `:` and
whitespace. -/
def stripWireTag (s : List Char) : List Char :=
  match NORM_WIRE_WORDS.findSome? (fun w => stripTagMatch w s) with
  | some r => r
  | none => s

/-- Drop the trailing run of `\s` characters. -/
def dropTrailingWS (s : List Char) : List Char :=
  (s.reverse.dropWhile isPyWS).reverse

/-- `re.sub(r"\s*\([^)]+\)$", "", s)`: remove a trailing parenthetical (at
least one non-`)` character between the parens) together with the
whitespace run before it.  The matched `(` is the leftmost one after the
second-to-last `)` (leftmost match of the anchored pattern). -/
def stripTrailingParen (s : List Char) : List Char :=
  match s.reverse with
  | ')' :: rest =>
    let segF := (rest.takeWhile (fun c => c != ')')).reverse
    match segF.findIdx? (fun c => c == '(') with
    | some q =>
      if q + 1 < segF.length then
        dropTrailingWS (s.take (s.length - 1 - segF.length + q))
      else s
    | none => s
  | _ => s

/-- Replace every maximal run of characters satisfying `p` by the single
character `rep` (the `inRun` flag records whether the previous character
was part of a run). -/
def squashRuns (p : Char → Bool) (rep : Char) : List Char → Bool → List Char
  | [], _ => []
  | c :: cs, inRun =>
    if p c then
      (if inRun then [] else [rep]) ++ squashRuns p rep cs true
    else
      c :: squashRuns p rep cs false

/-- The dash characters of `re.sub(r"[-–—]+", "-", s)`. -/
def isDash (c : Char) : Bool := c == '-' || c == '–' || c == '—'

/-- A character kept by `[^a-z0-9]+ -> " "` (the string is lowercase by
this point in `normalize_title`). -/
def isLowerAlnum (c : Char) : Bool :=
  (decide ('a' ≤ c) && decide (c ≤ 'z')) || (decide ('0' ≤ c) && decide (c ≤ '9'))

/-- Split on single spaces (after `[^a-z0-9]+ -> " "` every whitespace
character is a space). -/
def splitSpaces : List Char → List (List Char)
  | [] => [[]]
  | c :: cs =>
    if c = ' ' then [] :: splitSpaces cs
    else
      match splitSpaces cs with
      | [] => [[c]]
      | t :: ts => (c :: t) :: ts

/-- Generic suffix words of `re.sub(r"\b(report|video|live|analysis|opinion)\b", " ", s)`.
After the `[^a-z0-9]+` pass the text is alphanumeric tokens separated by
single spaces, so a `\b`-delimited match is exactly a whole token. -/
def NORM_STOP_WORDS : List (List Char) :=
  ["report", "video", "live", "analysis", "opinion"].map String.toList

/-- `normalize_title(s)` (lines 234-243).  `Char.toLower` models
`str.lower()` (they agree on the ASCII titles at issue).  The last two
substitutions (generic-word removal, `\s+ -> " "` plus `strip()`) are
realised together on the token decomposition: generic and empty tokens
vanish and the rest are re-joined with single spaces. -/
def normalizeTitleL (s : List Char) : List Char :=
  let s := s.map Char.toLower
  let s := stripWireTag s
  let s := stripTrailingParen s
  let s := squashRuns isDash '-' s false
  let s := squashRuns (fun c => !isLowerAlnum c) ' ' s false
  List.intercalate [' ']
    ((splitSpaces s).filter (fun t => !t.isEmpty && !(NORM_STOP_WORDS.contains t)))

/-- String wrapper for `normalize_title`. -/
def normalize_title (s : String) : String := String.mk (normalizeTitleL s.toList)

-- ------------------------------------------------------------------
-- Data model: raw entries and scored items
-- ------------------------------------------------------------------

/-- One parsed feed entry as seen by the `harvest` inner loop: `title` and
`link` are the stripped strings, `summary` the unescaped summary,
`publishedTs` the result of `pub_ts` (`none` when both timestamp fields
are absent or unparsable, in which case `now_ts()` is substituted),
`srcTrusted` the trusted-publisher regex result on the feed's source
name, `hostTld`/`hostDomain` the EMEA TLD/outlet-domain tests on the
link's host, and `features` the pattern results on the joined
`f"{title} {summary}"`. -/
structure Entry where
  title : String
  link : String
  summary : String
  source : String
  srcTrusted : Bool
  kind : FeedKind
  publishedTs : Option ℚ
  hostTld : Bool
  hostDomain : Bool
  features : TextFeatures
deriving DecidableEq, Repr

/-- The `Item` dataclass (lines 274-284). -/
structure Item where
  title : String
  link : String
  summary : String
  publishedTs : ℚ
  source : String
  feedKind : FeedKind
  score : ℤ
  priority : ℤ
  urgent : Bool
deriving DecidableEq, Repr

/-- `is_emea_relevant(text, link)` (lines 246-269) over the feature flags;
`hostTld`/`hostDomain` are the two host heuristics of lines 266-268. -/
def is_emea_relevant (f : TextFeatures) (hostTld hostDomain : Bool) : Bool :=
  if (f.nonEmeaBlock || f.usPolitics || f.usStates || f.usBigCities)
      && !(f.emeaAllow || (f.watchlist || f.watchlistHubs)) then
    false
  else if !GEO_STRICT then
    (if f.emeaAllow then true else if f.nonEmeaBlock then false else true)
  else if f.watchlist || f.watchlistHubs then true
  else if f.emeaAllow then true
  else hostTld || hostDomain

/-- The per-entry body of the `harvest` loop (lines 385-413): skip on
empty title/link, on a noise-exclude match, on failed EMEA relevance, and
on `prio == 0 or score < MIN_SCORE_TO_INCLUDE`; otherwise build the
`Item`. -/
def processEntry (e : Entry) (clock : ℚ) : Option Item :=
  if e.title = "" ∨ e.link = "" then none
  else if e.features.exclude then none
  else if ¬ (is_emea_relevant e.features e.hostTld e.hostDomain = true) then none
  else
    let ts := e.publishedTs.getD clock
    let su := incidentScore e.features e.kind ts e.srcTrusted clock
    let prio := to_priority su.1
    if prio = 0 ∨ su.1 < MIN_SCORE_TO_INCLUDE then none
    else some
      { title := e.title, link := e.link, summary := e.summary,
        publishedTs := ts, source := e.source, feedKind := e.kind,
        score := su.1, priority := prio, urgent := su.2 }

-- ------------------------------------------------------------------
-- Israel HFC (Oref) items (harvest_oref, lines 477-534)
-- ------------------------------------------------------------------

/-- One alert record of the Oref JSON: `title` is
`f"Rocket siren: {cities_txt or threat}"`, `linkText` the fetched URL,
`details` the `Threat/Areas` line, `when` the parsed alert timestamp
(`none` when absent/unparsable, in which case `now` is substituted), and
`features` the pattern results on `f"{title} {details}"`. -/
structure OrefAlert where
  title : String
  linkText : String
  details : String
  when : Option ℚ
  features : TextFeatures
deriving DecidableEq, Repr

/-- `_mk_item` (lines 497-511): score the text as an `alerts` entry, raise
the score to at least `P1_THRESHOLD + 5` ("force P1") and set
`urgent=True`.  The trusted-publisher regex does not match the source
argument `"Israel HFC"`, so `srcTrusted` is `false`. -/
def mkOrefItem (a : OrefAlert) (clock : ℚ) : Item :=
  let when := a.when.getD clock
  let su := incidentScore a.features FeedKind.alerts when false clock
  let score := max su.1 (P1_THRESHOLD + 5)
  { title := a.title, link := a.linkText, summary := a.details,
    publishedTs := when,
    source := "Israel Home Front Command (Oref)",
    feedKind := FeedKind.alerts,
    score := score, priority := to_priority score, urgent := true }

-- ------------------------------------------------------------------
-- difflib.SequenceMatcher(None, a, b).ratio() model (used at line 432)
-- ------------------------------------------------------------------

/-- Valid match test: the length-`l` slices of `a` at `i` and of `b` at `j`
exist and are equal. -/
def matchAt (a b : List Char) (i j l : ℕ) : Bool :=
  decide (i + l ≤ a.length) && decide (j + l ≤ b.length)
    && decide ((a.drop i).take l = (b.drop j).take l)

/-- Scan `j = start, start+1, ...` (bounded by `fuel`) for the first `j`
with `matchAt a b i j l`. -/
def scanJ (a b : List Char) (i l : ℕ) : ℕ → ℕ → Option ℕ
  | _, 0 => none
  | j, fuel + 1 => if matchAt a b i j l then some j else scanJ a b i l (j + 1) fuel

/-- Scan `i = start, start+1, ...` (bounded by `fuel`) for the first pair
`(i, j)` in lexicographic order with `matchAt a b i j l`. -/
def scanIJ (a b : List Char) (l : ℕ) : ℕ → ℕ → Option (ℕ × ℕ)
  | _, 0 => none
  | i, fuel + 1 =>
    match scanJ a b i l 0 (b.length + 1) with
    | some j => some (i, j)
    | none => scanIJ a b l (i + 1) fuel

/-- Try lengths `l, l-1, ..., 1` and return the first (hence longest)
common slice, with the lexicographically first `(i, j)` at that length. -/
def longestMatchFrom (a b : List Char) : ℕ → Option (ℕ × ℕ × ℕ)
  | 0 => none
  | l + 1 =>
    match scanIJ a b (l + 1) 0 (a.length + 1) with
    | some p => some (p.1, p.2, l + 1)
    | none => longestMatchFrom a b l

/-- `SequenceMatcher.find_longest_match` over the whole ranges, for inputs
with no junk elements (`SequenceMatcher(None, norm, prev)` computes junk
only via the autojunk heuristic, which is inactive below 200 characters):
the longest common slice, ties resolved to the lexicographically first
`(i, j)` — exactly the block difflib's `k > bestsize` scan records. -/
def findLongestMatch (a b : List Char) : Option (ℕ × ℕ × ℕ) :=
  longestMatchFrom a b (min a.length b.length)

/-- Total matched size of `get_matching_blocks`: recursively take the
longest match and recurse on the pieces left of it and right of it.
`fuel` bounds the recursion depth (every level strictly shrinks
`a.length + b.length`, so the initial fuel in `matchedTotal` is never
exhausted). -/
def matchedTotalF : ℕ → List Char → List Char → ℕ
  | 0, _, _ => 0
  | fuel + 1, a, b =>
    match findLongestMatch a b with
    | none => 0
    | some (i, j, k) =>
        matchedTotalF fuel (a.take i) (b.take j)
          + k + matchedTotalF fuel (a.drop (i + k)) (b.drop (j + k))

/-- Total size of the matching blocks of `a` and `b`. -/
def matchedTotal (a b : List Char) : ℕ :=
  matchedTotalF (a.length + b.length + 1) a b

/-- `SequenceMatcher(None, a, b).ratio() >= 0.96`, i.e.
`2*M / (len(a)+len(b)) >= 0.96`, cleared of denominators over ℕ
(`ratio()` of two empty strings is defined as `1.0`, and `0 ≥ 0` keeps
that case on the "similar" side). -/
def ratioGe96 (a b : String) : Bool :=
  decide (100 * (2 * matchedTotal a.toList b.toList)
    ≥ 96 * (a.toList.length + b.toList.length))

-- ------------------------------------------------------------------
-- Deduplicate & sort (harvest, lines 418-440)
-- ------------------------------------------------------------------

/-- The sort key `lambda x: (x.priority, x.score, x.published_ts)`. -/
def sortKey (it : Item) : ℤ × ℤ × ℚ := (it.priority, it.score, it.publishedTs)

/-- Python tuple comparison `a >= b` on the sort keys. -/
def keyGeB (a b : ℤ × ℤ × ℚ) : Bool :=
  if a.1 = b.1 then
    (if a.2.1 = b.2.1 then decide (a.2.2 ≥ b.2.2) else decide (a.2.1 > b.2.1))
  else decide (a.1 > b.1)

/-- Stable descending insertion: `x` goes in front of the first element
whose key is `<=` its own (so that, among equal keys, earlier input
elements stay first, as with Python's stable `sorted(..., reverse=True)`). -/
def insertDesc (x : Item) : List Item → List Item
  | [] => [x]
  | y :: ys => if keyGeB (sortKey x) (sortKey y) then x :: y :: ys else y :: insertDesc x ys

/-- `sorted(items, key=lambda x: (x.priority, x.score, x.published_ts), reverse=True)`:
the unique stable descending order by `sortKey`. -/
def sortDesc : List Item → List Item
  | [] => []
  | x :: xs => insertDesc x (sortDesc xs)

/-- The exact dedup key: `sha256(title + '|' + link)`, modelled by the
hash input itself. -/
def exactKey (it : Item) : String := it.title ++ "|" ++ it.link

/-- The streaming pass of the deduplicator (lines 419-439): drop an item
whose exact key was already *kept*, or whose normalized title equals, or
has similarity `>= 0.96` with, a previously kept normalized title;
otherwise keep it and record both keys. -/
def dedupPass : List Item → List String → List String → List Item
  | [], _, _ => []
  | it :: rest, seenH, seenN =>
    if exactKey it ∈ seenH then dedupPass rest seenH seenN
    else
      if normalize_title it.title ∈ seenN
          ∨ seenN.any (fun prev => ratioGe96 (normalize_title it.title) prev) then
        dedupPass rest seenH seenN
      else
        it :: dedupPass rest (exactKey it :: seenH) (normalize_title it.title :: seenN)

/-- The full deduplicate-and-sort step of `harvest` (lines 418-440). -/
def dedupe (items : List Item) : List Item :=
  dedupPass (sortDesc items) [] []

-- ------------------------------------------------------------------
-- Harvest assembly (lines 377-440)
-- ------------------------------------------------------------------

/-- The candidate list `items` of `harvest` just before the
deduplicate-and-sort step: the gated, scored feed entries followed by the
Oref items appended by `items.extend(harvest_oref())`. -/
def harvestCandidates (entries : List Entry) (orefs : List OrefAlert)
    (clock : ℚ) : List Item :=
  entries.filterMap (fun e => processEntry e clock) ++ orefs.map (fun a => mkOrefItem a clock)

/-- `harvest()`: gate, score and collect the feed entries, append the Oref
items, then deduplicate and sort. -/
def harvest (entries : List Entry) (orefs : List OrefAlert) (clock : ℚ) : List Item :=
  dedupe (harvestCandidates entries orefs clock)

-- ------------------------------------------------------------------
-- build_feed (lines 442-472): the per-entry output slice
-- ------------------------------------------------------------------

/-- One serialized feed entry's identity-relevant fields. -/
structure FeedEntryOut where
  title : String
  link : String
  pubDate : ℚ
  guid : String
deriving DecidableEq, Repr

/-- The publish timestamp `build_feed` assigns to the item at position
`idx`: `now + timedelta(seconds=(replay - idx))` for the first `replay`
positions, the item's own timestamp otherwise (lines 461-468). -/
def assignedPubDate (it : Item) (idx replay : ℕ) (now : ℚ) : ℚ :=
  if idx < replay then now + ((replay : ℚ) - (idx : ℚ)) else it.publishedTs

/-- The GUID `build_feed` assigns at position `idx`:
`sha256(title|link|seed)` (seed = `reseed` if non-empty else the
formatted current time `nowStr`) for the first `replay` positions,
`sha256(title|link)` otherwise; digests modelled by their inputs. -/
def assignedGuid (it : Item) (idx replay : ℕ) (reseed nowStr : String) : String :=
  if idx < replay then
    it.title ++ "|" ++ it.link ++ "|" ++ (if reseed ≠ "" then reseed else nowStr)
  else it.title ++ "|" ++ it.link

/-- The entry list `build_feed` emits: `enumerate(items)`, skipping items
whose priority is not in `(1, 2, 3)` (the position `idx` of the
enumeration still advances over skipped items, as in the source). -/
def buildFeedEntries (items : List Item) (replay : ℕ) (reseed : String)
    (now : ℚ) (nowStr : String) : List FeedEntryOut :=
  items.enum.filterMap (fun p =>
    if p.2.priority = 1 ∨ p.2.priority = 2 ∨ p.2.priority = 3 then
      some { title := p.2.title, link := p.2.link,
             pubDate := assignedPubDate p.2 p.1 replay now,
             guid := assignedGuid p.2 p.1 replay reseed nowStr }
    else none)

-- ------------------------------------------------------------------
-- Concrete fixtures used by witnesses and counterexamples
-- ------------------------------------------------------------------

/-- Replace only the display-annotation `urgent` flag of an item. -/
def setUrgent (it : Item) (u : Bool) : Item :=
  { it with urgent := u }

/-- C1 fixture: a priority-1 candidate (score 85, e.g. recency bonus in
range) of a duplicate pair sharing title and link. -/
def c1ItemP1 : Item :=
  { title := "Explosion in Paris", link := "https://news.example/exp",
    summary := "fresh copy", publishedTs := 0, source := "Feed A",
    feedKind := FeedKind.news, score := 85, priority := 1, urgent := true }

/-- C1 fixture: the other instance of the same story (identical title and
link, score 75 without the recency bonus), landing in priority tier 2. -/
def c1ItemP2 : Item :=
  { title := "Explosion in Paris", link := "https://news.example/exp",
    summary := "older copy", publishedTs := 0, source := "Feed B",
    feedKind := FeedKind.news, score := 75, priority := 2, urgent := false }

/-- C4 fixture: the top-ranked item of a two-item feed. -/
def c4Item1 : Item :=
  { title := "Curfew declared in Kyiv", link := "https://news.example/a",
    summary := "", publishedTs := -9000, source := "Feed A",
    feedKind := FeedKind.news, score := 90, priority := 1, urgent := true }

/-- C4 fixture: the second-ranked item of a two-item feed. -/
def c4Item2 : Item :=
  { title := "Rail suspended in Vienna", link := "https://news.example/b",
    summary := "", publishedTs := -12000, source := "Feed B",
    feedKind := FeedKind.news, score := 60, priority := 2, urgent := false }

/-- C8 fixture: one of two items with clearly dissimilar titles. -/
def c8ItemFire : Item :=
  { title := "Fire", link := "https://news.example/f1",
    summary := "", publishedTs := 0, source := "Feed A",
    feedKind := FeedKind.news, score := 60, priority := 2, urgent := false }

/-- C8 fixture: the other, dissimilar item (distinct exact key). -/
def c8ItemFlood : Item :=
  { title := "Flood zz", link := "https://news.example/f2",
    summary := "", publishedTs := 0, source := "Feed B",
    feedKind := FeedKind.news, score := 55, priority := 2, urgent := false }

/-- C9 fixture: an entry that passes every gate (terror + watchlist). -/
def c9Entry : Entry :=
  { title := "Explosion in Paris", link := "https://news.example/exp",
    summary := "blast reported", source := "Feed A", srcTrusted := false,
    kind := FeedKind.news, publishedTs := some 0,
    hostTld := false, hostDomain := false,
    features := { terror := true, watchlist := true } }

/-- C9 fixture: the item `processEntry` builds from `c9Entry` at clock 0
(score 90 terror + 30 watchlist + 10 recency = 130, priority 1). -/
def c9ResultItem : Item :=
  { title := "Explosion in Paris", link := "https://news.example/exp",
    summary := "blast reported", publishedTs := 0, source := "Feed A",
    feedKind := FeedKind.news, score := 130, priority := 1, urgent := true }

/-- C10 fixture: an Oref alert whose text even matches the noise exclude
list and carries no EMEA evidence — the gates are bypassed anyway. -/
def c10Alert : OrefAlert :=
  { title := "Rocket siren: Tel Aviv", linkText := "https://www.oref.org.il/WarningMessages/alert/Alerts.json",
    details := "Threat: Rocket alert; Areas: Tel Aviv",
    when := some 0,
    features := { exclude := true, nonEmeaBlock := true } }

/-- C2 witness: a concrete meteoalarm entry whose joined text carries only
a yellow severity keyword (all other incident features present for good
measure would also be vetoed; here the pure yellow case of the claim). -/
def c2YellowEntry : Entry :=
  { title := "Yellow weather warning for Kent", link := "https://feeds.meteoalarm.org/x",
    summary := "", source := "MeteoAlarm", srcTrusted := false,
    kind := FeedKind.meteoalarm, publishedTs := some 0,
    hostTld := false, hostDomain := false,
    features := { meteoYellow := true } }

/-- C6 witness entry: a noise match co-located with high-scoring incident
vocabulary and explicit region/watchlist evidence. -/
def c6NoiseEntry : Entry :=
  { title := "Football final: riot and explosion near stadium in Paris",
    link := "https://news.example.co.uk/a", summary := "Tens of thousands in France",
    source := "BBC News", srcTrusted := true,
    kind := FeedKind.news, publishedTs := some 0,
    hostTld := true, hostDomain := true,
    features := { exclude := true, terror := true, violence := true,
                  protest := true, protestScale := true, watchlist := true,
                  emeaAllow := true, urgentTerm := true } }

-- ------------------------------------------------------------------
-- Closed form of incident_score (proof infrastructure)
-- ------------------------------------------------------------------

/-- `incident_score` in closed form: the let-chain of the source equals
the veto test around `totalScore` and the urgency disjunction. -/
theorem incidentScore_eq (f : TextFeatures) (kind : FeedKind) (ts : ℚ) (src : Bool) (clock : ℚ) :
    incidentScore f kind ts src clock =
      if kind = FeedKind.meteoalarm ∧ meteoSeverity f < 40 ∧ REQUIRE_METEO_ORANGE then (0, false)
      else (totalScore f kind ts src clock,
        f.urgentTerm || decide (totalScore f kind ts src clock ≥ P1_THRESHOLD + 10)) := rfl

-- ------------------------------------------------------------------
-- C5: priority classifier monotonicity and threshold ties
-- ------------------------------------------------------------------

/-- C5: the priority classifier is monotone — for all integer scores
`s1 > s2`, `priority(s1)` is at least `priority(s2)` in the ordinal order
`p1 > p2 > p3 > none` — and each of the three descending thresholds is
compared with `>=`, so a score exactly equal to a threshold resolves to
the higher tier. -/
theorem C5_priority_monotone :
    (∀ s1 s2 : ℤ, s2 < s1 → prioRank (to_priority s2) ≤ prioRank (to_priority s1))
      ∧ to_priority P1_THRESHOLD = 1
      ∧ to_priority P2_THRESHOLD = 2
      ∧ to_priority P3_THRESHOLD = 3 := by
  refine ⟨?_, by decide, by decide, by decide⟩
  intro s1 s2 h
  simp only [to_priority, P1_THRESHOLD, P2_THRESHOLD, P3_THRESHOLD]
  split_ifs <;> simp_all [prioRank] <;> omega

/-- C5 witness: a concrete instance of the monotonicity implication. -/
theorem C5_priority_monotone_witness :
    prioRank (to_priority 29) ≤ prioRank (to_priority 85) :=
  C5_priority_monotone.1 85 29 (by decide)

-- ------------------------------------------------------------------
-- C2: meteorological hard veto
-- ------------------------------------------------------------------

/-- C2: on a `meteoalarm` entry whose derived weather severity is below
the orange tier (40) under the active `REQUIRE_METEO_ORANGE` policy, the
scoring function returns `(0, false)` regardless of every other matching
incident feature, and such an entry is dropped from the output
(`processEntry` yields nothing). -/
theorem C2_meteo_veto :
    (∀ (f : TextFeatures) (ts : ℚ) (src : Bool) (clock : ℚ),
        meteoSeverity f < 40 →
        incidentScore f FeedKind.meteoalarm ts src clock = (0, false))
      ∧ (∀ (e : Entry) (clock : ℚ),
        e.kind = FeedKind.meteoalarm →
        meteoSeverity e.features < 40 →
        processEntry e clock = none) := by
  have h1 : ∀ (f : TextFeatures) (ts : ℚ) (src : Bool) (clock : ℚ),
      meteoSeverity f < 40 →
      incidentScore f FeedKind.meteoalarm ts src clock = (0, false) := by
    intro f ts src clock hsev
    unfold incidentScore
    rw [if_pos]
    exact ⟨rfl, hsev, by decide⟩
  refine ⟨h1, ?_⟩
  intro e clock hk hsev
  unfold processEntry
  rw [hk]
  have h2 := h1 e.features (e.publishedTs.getD clock) e.srcTrusted clock hsev
  split_ifs with g1 g2 g3 <;>
    simp [h2, to_priority, P1_THRESHOLD, P2_THRESHOLD, P3_THRESHOLD,
      MIN_SCORE_TO_INCLUDE]

/-- C2 witness: the yellow-only meteoalarm entry is dropped. -/
theorem C2_meteo_veto_witness :
    processEntry c2YellowEntry 0 = none :=
  C2_meteo_veto.2 c2YellowEntry 0 rfl (by decide)

-- ------------------------------------------------------------------
-- C3: scoring purity vs. the ambient wall clock
-- ------------------------------------------------------------------

/-- C3 counterexample: `incident_score` takes no "now" argument — it reads
the wall clock inside `recency_bonus` — so two invocations with identical
explicit arguments (text features, category, publish timestamp, source)
at different wall-clock instants return different scores. -/
theorem C3_clock_dependence_counterexample :
    incidentScore {} FeedKind.news 0 false 0
      ≠ incidentScore {} FeedKind.news 0 false 100000 := by
  have h1 : incidentScore {} FeedKind.news 0 false 0 = (10, false) := by
    norm_num [incidentScore, meteoSeverity, qBoost, watchlistBonus,
      recencyBonus, REQUIRE_METEO_ORANGE, P1_THRESHOLD]
    decide
  have h2 : incidentScore {} FeedKind.news 0 false 100000 = (0, false) := by
    norm_num [incidentScore, meteoSeverity, qBoost, watchlistBonus,
      recencyBonus, REQUIRE_METEO_ORANGE, P1_THRESHOLD]
  rw [h1, h2]
  decide

/-- C3 amended: scoring depends on its explicit inputs and on the ambient
wall clock, but on the clock only through the recency bonus: whenever two
clock readings give the publish timestamp the same recency bonus, the
(score, urgent) results coincide; with the clock reading held fixed the
function is deterministic in its arguments. -/
theorem C3_pure_given_clock :
    ∀ (f : TextFeatures) (kind : FeedKind) (ts : ℚ) (src : Bool) (c1 c2 : ℚ),
      recencyBonus ts c1 = recencyBonus ts c2 →
      incidentScore f kind ts src c1 = incidentScore f kind ts src c2 := by
  intro f kind ts src c1 c2 h
  unfold incidentScore
  rw [h]

/-- C3 witness: two clock readings inside the same recency bucket give
identical results. -/
theorem C3_pure_given_clock_witness :
    incidentScore {} FeedKind.news 0 false 0
      = incidentScore {} FeedKind.news 0 false 3600 :=
  C3_pure_given_clock {} FeedKind.news 0 false 0 3600 (by norm_num [recencyBonus])

-- ------------------------------------------------------------------
-- C6: universal noise exclusion
-- ------------------------------------------------------------------

/-- C6: a feed entry whose joined title+summary matches the noise exclude
list is rejected before scoring and absent from the output, whatever other
incident, watchlist or region features the same text carries. -/
theorem C6_noise_exclusion :
    ∀ (e : Entry) (clock : ℚ), e.features.exclude = true →
      processEntry e clock = none := by
  intro e clock h
  unfold processEntry
  split_ifs <;> simp_all

/-- C6 witness: the entry is dropped despite all its incident features. -/
theorem C6_noise_exclusion_witness :
    processEntry c6NoiseEntry 0 = none :=
  C6_noise_exclusion c6NoiseEntry 0 rfl

-- ------------------------------------------------------------------
-- C7: quantity extraction boosts
-- ------------------------------------------------------------------

/-- C7: each parsed numeric phrase bound to casualty/injury/arrest
vocabulary contributes exactly `min(cap, max(5, N × mult))` to the score
of a non-vetoed entry, with `(mult, cap)` pairs `killed (4, 80) >
injured (2, 55) > arrested (1, 45)`; a phrase whose number fails to parse
contributes nothing and leaves the whole `(score, urgent)` result
unchanged. -/
theorem C7_quantity_boosts :
    (∀ (f : TextFeatures) (kind : FeedKind) (ts : ℚ) (src : Bool) (clock : ℚ) (n : ℕ),
      ¬(kind = FeedKind.meteoalarm ∧ meteoSeverity f < 40) →
        (incidentScore { f with qKilled := some n :: f.qKilled } kind ts src clock).1
            = (incidentScore f kind ts src clock).1 + min 80 (max 5 ((n : ℤ) * 4))
          ∧ (incidentScore { f with qInjured := some n :: f.qInjured } kind ts src clock).1
            = (incidentScore f kind ts src clock).1 + min 55 (max 5 ((n : ℤ) * 2))
          ∧ (incidentScore { f with qArrested := some n :: f.qArrested } kind ts src clock).1
            = (incidentScore f kind ts src clock).1 + min 45 (max 5 ((n : ℤ) * 1)))
      ∧ (∀ (f : TextFeatures) (kind : FeedKind) (ts : ℚ) (src : Bool) (clock : ℚ),
          incidentScore { f with qKilled := none :: f.qKilled } kind ts src clock
              = incidentScore f kind ts src clock
            ∧ incidentScore { f with qInjured := none :: f.qInjured } kind ts src clock
              = incidentScore f kind ts src clock
            ∧ incidentScore { f with qArrested := none :: f.qArrested } kind ts src clock
              = incidentScore f kind ts src clock)
      ∧ ((4 : ℤ) > 2 ∧ (2 : ℤ) > 1 ∧ (80 : ℤ) > 55 ∧ (55 : ℤ) > 45) := by
  refine ⟨?_, ?_, by decide⟩
  · intro f kind ts src clock n hveto
    refine ⟨?_, ?_, ?_⟩
    · have hq : qBoost { f with qKilled := some n :: f.qKilled }
          = min 80 (max 5 ((n : ℤ) * 4)) + qBoost f := by
        simp [qBoost, qContrib]; ring
      rw [incidentScore_eq, incidentScore_eq, if_neg, if_neg]
      · show totalScore _ kind ts src clock = totalScore f kind ts src clock + _
        have h1 : hazardScore { f with qKilled := some n :: f.qKilled } kind
            = hazardScore f kind := rfl
        have h2 : watchlistBonus { f with qKilled := some n :: f.qKilled }
            = watchlistBonus f := rfl
        simp only [totalScore, h1, h2, hq]
        ring
      · exact fun h => hveto ⟨h.1, h.2.1⟩
      · exact fun h => hveto ⟨h.1, h.2.1⟩
    · have hq : qBoost { f with qInjured := some n :: f.qInjured }
          = min 55 (max 5 ((n : ℤ) * 2)) + qBoost f := by
        simp [qBoost, qContrib]; ring
      rw [incidentScore_eq, incidentScore_eq, if_neg, if_neg]
      · show totalScore _ kind ts src clock = totalScore f kind ts src clock + _
        have h1 : hazardScore { f with qInjured := some n :: f.qInjured } kind
            = hazardScore f kind := rfl
        have h2 : watchlistBonus { f with qInjured := some n :: f.qInjured }
            = watchlistBonus f := rfl
        simp only [totalScore, h1, h2, hq]
        ring
      · exact fun h => hveto ⟨h.1, h.2.1⟩
      · exact fun h => hveto ⟨h.1, h.2.1⟩
    · have hq : qBoost { f with qArrested := some n :: f.qArrested }
          = min 45 (max 5 ((n : ℤ) * 1)) + qBoost f := by
        simp [qBoost, qContrib]; ring
      rw [incidentScore_eq, incidentScore_eq, if_neg, if_neg]
      · show totalScore _ kind ts src clock = totalScore f kind ts src clock + _
        have h1 : hazardScore { f with qArrested := some n :: f.qArrested } kind
            = hazardScore f kind := rfl
        have h2 : watchlistBonus { f with qArrested := some n :: f.qArrested }
            = watchlistBonus f := rfl
        simp only [totalScore, h1, h2, hq]
        ring
      · exact fun h => hveto ⟨h.1, h.2.1⟩
      · exact fun h => hveto ⟨h.1, h.2.1⟩
  · intro f kind ts src clock
    refine ⟨?_, ?_, ?_⟩
    · have hq : qBoost { f with qKilled := none :: f.qKilled } = qBoost f := by
        simp [qBoost, qContrib]
      have ht : totalScore { f with qKilled := none :: f.qKilled } kind ts src clock
          = totalScore f kind ts src clock := by
        simp only [totalScore, hq]; rfl
      rw [incidentScore_eq, incidentScore_eq, ht]
      rfl
    · have hq : qBoost { f with qInjured := none :: f.qInjured } = qBoost f := by
        simp [qBoost, qContrib]
      have ht : totalScore { f with qInjured := none :: f.qInjured } kind ts src clock
          = totalScore f kind ts src clock := by
        simp only [totalScore, hq]; rfl
      rw [incidentScore_eq, incidentScore_eq, ht]
      rfl
    · have hq : qBoost { f with qArrested := none :: f.qArrested } = qBoost f := by
        simp [qBoost, qContrib]
      have ht : totalScore { f with qArrested := none :: f.qArrested } kind ts src clock
          = totalScore f kind ts src clock := by
        simp only [totalScore, hq]; rfl
      rw [incidentScore_eq, incidentScore_eq, ht]
      rfl

-- ------------------------------------------------------------------
-- C1: dedup sort order and the surviving duplicate
-- ------------------------------------------------------------------

/-- C1 (code bug evaluation): for two candidates with identical title and
link, exactly one survives, but the survivor is the priority-2 instance,
not the priority-1 one: `sorted(..., reverse=True)` sorts the *numeric*
priority descending, and the numeric code 1 denotes the highest tier, so
the lower tier (larger number) sorts first and survives deduplication. -/
theorem C1_lower_tier_duplicate_survives :
    c1ItemP1.title = c1ItemP2.title ∧ c1ItemP1.link = c1ItemP2.link
      ∧ c1ItemP1.priority = 1 ∧ c1ItemP2.priority = 2
      ∧ c1ItemP1.score > c1ItemP2.score
      ∧ sortDesc [c1ItemP1, c1ItemP2] = [c1ItemP2, c1ItemP1]
      ∧ dedupe [c1ItemP1, c1ItemP2] = [c1ItemP2] :=
  ⟨rfl, rfl, rfl, rfl, by decide, by rfl, by rfl⟩

-- ------------------------------------------------------------------
-- C4: replay assembler timestamps
-- ------------------------------------------------------------------

/-- C4 counterexample: with `replay = 2` and `now = 0`, the item ranked 1
receives pubDate `now + 2` and the item ranked 2 receives `now + 1`, so
the item ranked 1 receives the timestamp *farthest* from "now", not the
closest — the synthetic timestamps run into the future, not the past. -/
theorem C4_rank1_not_closest_counterexample :
    (buildFeedEntries [c4Item1, c4Item2] 2 "s" 0 "z").map FeedEntryOut.pubDate = [2, 1]
      ∧ ¬ (|(2 : ℚ) - 0| ≤ |(1 : ℚ) - 0|) := by
  constructor
  · simp [buildFeedEntries, List.enum, List.enumFrom, assignedPubDate, assignedGuid,
      c4Item1, c4Item2, List.filterMap_cons]
    norm_num
  · norm_num

/-- C4 amended: each of the first `replay` items (in final rank order)
gets the synthetic timestamp `now + (replay - idx)` seconds — strictly in
the *future* of "now", strictly decreasing with rank, so rank order is
preserved newest-first and the item ranked 1 gets the timestamp farthest
from "now"; every item beyond the first `replay` keeps its original
publish timestamp. -/
theorem C4_replay_timestamps :
    (∀ (it : Item) (idx replay : ℕ) (now : ℚ), idx < replay →
        assignedPubDate it idx replay now = now + ((replay : ℚ) - (idx : ℚ))
          ∧ now < assignedPubDate it idx replay now)
      ∧ (∀ (it1 it2 : Item) (idx1 idx2 replay : ℕ) (now : ℚ),
          idx1 < idx2 → idx2 < replay →
          assignedPubDate it2 idx2 replay now < assignedPubDate it1 idx1 replay now)
      ∧ (∀ (it : Item) (idx replay : ℕ) (now : ℚ), replay ≤ idx →
          assignedPubDate it idx replay now = it.publishedTs)
      ∧ (∀ (items : List Item) (replay : ℕ) (reseed nowStr : String) (now : ℚ),
          (∀ it ∈ items, it.priority = 1 ∨ it.priority = 2 ∨ it.priority = 3) →
          (buildFeedEntries items replay reseed now nowStr).map FeedEntryOut.pubDate
            = items.enum.map (fun p => assignedPubDate p.2 p.1 replay now)) := by
  refine ⟨?_, ?_, ?_, ?_⟩
  · intro it idx replay now h
    unfold assignedPubDate
    rw [if_pos h]
    refine ⟨rfl, ?_⟩
    have : (idx : ℚ) < (replay : ℚ) := by exact_mod_cast h
    linarith
  · intro it1 it2 idx1 idx2 replay now h1 h2
    unfold assignedPubDate
    rw [if_pos h2, if_pos (h1.trans h2)]
    have ha : (idx1 : ℚ) < (idx2 : ℚ) := by exact_mod_cast h1
    linarith
  · intro it idx replay now h
    unfold assignedPubDate
    rw [if_neg (by omega)]
  · intro items replay reseed nowStr now h
    have key : ∀ (n : ℕ) (its : List Item), (∀ it ∈ its, it.priority = 1 ∨ it.priority = 2 ∨ it.priority = 3) →
        ((List.enumFrom n its).filterMap (fun p =>
            if p.2.priority = 1 ∨ p.2.priority = 2 ∨ p.2.priority = 3 then
              some { title := p.2.title, link := p.2.link,
                     pubDate := assignedPubDate p.2 p.1 replay now,
                     guid := assignedGuid p.2 p.1 replay reseed nowStr }
            else none)).map FeedEntryOut.pubDate
          = (List.enumFrom n its).map (fun p => assignedPubDate p.2 p.1 replay now) := by
      intro n its
      induction its generalizing n with
      | nil => intro _; rfl
      | cons x xs ih =>
        intro hall
        have hx := hall x (List.mem_cons_self x xs)
        simp only [List.enumFrom, List.filterMap_cons, if_pos hx, List.map_cons]
        exact congrArg _ (ih (n + 1) (fun it hit => hall it (List.mem_cons_of_mem x hit)))
    exact key 0 items h

/-- C4 witness: concrete instances of the amended replay facts. -/
theorem C4_replay_timestamps_witness :
    (assignedPubDate c4Item1 0 2 0 = 0 + ((2 : ℚ) - (0 : ℚ))
        ∧ (0 : ℚ) < assignedPubDate c4Item1 0 2 0)
      ∧ assignedPubDate c4Item1 5 2 0 = c4Item1.publishedTs :=
  ⟨C4_replay_timestamps.1 c4Item1 0 2 0 (by decide),
   C4_replay_timestamps.2.2.1 c4Item1 5 2 0 (by decide)⟩

-- ------------------------------------------------------------------
-- C10: Oref items force P1 and bypass the gates
-- ------------------------------------------------------------------

/-- C10: every item built from an Oref alert has score at least
`P1_THRESHOLD + 5`, priority 1 and `urgent = true`, whatever its text
features (even noise-excluded or non-EMEA text), and it always joins the
harvest candidate list: the noise exclude, regional relevance and
minimum-inclusion/priority checks of the feed path are never applied to
it. -/
theorem C10_oref_forced_p1 :
    (∀ (a : OrefAlert) (clock : ℚ),
        P1_THRESHOLD + 5 ≤ (mkOrefItem a clock).score
          ∧ (mkOrefItem a clock).priority = 1
          ∧ (mkOrefItem a clock).urgent = true)
      ∧ (∀ (entries : List Entry) (orefs : List OrefAlert) (clock : ℚ) (a : OrefAlert),
          a ∈ orefs → mkOrefItem a clock ∈ harvestCandidates entries orefs clock) := by
  constructor
  · intro a clock
    refine ⟨le_max_right _ _, ?_, rfl⟩
    show to_priority (max _ (P1_THRESHOLD + 5)) = 1
    unfold to_priority
    rw [if_pos]
    exact le_trans (by unfold P1_THRESHOLD; omega) (le_max_right _ _)
  · intro entries orefs clock a ha
    unfold harvestCandidates
    exact List.mem_append_right _ (List.mem_map_of_mem _ ha)

/-- C10 witness: a concrete Oref alert whose text matches the noise list
and a non-EMEA token still produces a P1, urgent item in the candidate
set. -/
theorem C10_oref_forced_p1_witness :
    (P1_THRESHOLD + 5 ≤ (mkOrefItem c10Alert 0).score
        ∧ (mkOrefItem c10Alert 0).priority = 1
        ∧ (mkOrefItem c10Alert 0).urgent = true)
      ∧ mkOrefItem c10Alert 0 ∈ harvestCandidates [] [c10Alert] 0 :=
  ⟨C10_oref_forced_p1.1 c10Alert 0,
   C10_oref_forced_p1.2 [] [c10Alert] 0 c10Alert (List.mem_singleton.mpr rfl)⟩

/-- C7 witness: a parsed "3 killed" match contributes
`min(80, max(5, 3*4)) = 12` on a concrete non-vetoed call. -/
theorem C7_quantity_boosts_witness :
    (incidentScore { qKilled := [some 3] } FeedKind.news 0 false 0).1
      = (incidentScore {} FeedKind.news 0 false 0).1 + min 80 (max 5 ((3 : ℤ) * 4)) :=
  (C7_quantity_boosts.1 {} FeedKind.news 0 false 0 3 (by decide)).1

-- ------------------------------------------------------------------
-- Similarity-ratio facts (proof infrastructure for C8)
-- ------------------------------------------------------------------

/-- The matched total of two empty strings is zero at any fuel. -/
theorem matchedTotalF_nil_nil (fuel : ℕ) : matchedTotalF fuel [] [] = 0 := by
  cases fuel with
  | zero => rfl
  | succ n => rfl

/-- The whole string matches itself at position (0, 0). -/
theorem matchAt_self (l : List Char) : matchAt l l 0 0 l.length = true := by
  simp [matchAt]

/-- `find_longest_match` of a non-empty string with itself is the whole
string. -/
theorem findLongestMatch_self (l : List Char) (h : l ≠ []) :
    findLongestMatch l l = some (0, 0, l.length) := by
  cases l with
  | nil => exact absurd rfl h
  | cons c cs =>
    have hm := matchAt_self (c :: cs)
    simp only [List.length_cons] at hm
    simp [findLongestMatch, longestMatchFrom, scanIJ, scanJ, hm]

/-- The matched total of a string with itself is its length. -/
theorem matchedTotal_self (l : List Char) : matchedTotal l l = l.length := by
  cases hl : l with
  | nil => rfl
  | cons c cs =>
    unfold matchedTotal
    have hfuel : (c :: cs).length + (c :: cs).length + 1
        = ((c :: cs).length + (c :: cs).length) + 1 := rfl
    rw [hfuel, matchedTotalF, findLongestMatch_self _ (by simp)]
    simp [matchedTotalF_nil_nil]

/-- The similarity ratio of any normalized title with itself is at the
similar side of the 0.96 cut (it is 1, or the 1.0 convention for two
empty strings). -/
theorem ratioGe96_self (s : String) : ratioGe96 s s = true := by
  simp only [ratioGe96, matchedTotal_self, decide_eq_true_eq]
  omega

/-- Streaming-dedup invariant: every kept item has a normalized title that
differs from, and falls below the 0.96 similarity cut against, every
previously recorded normalized title — and hence against every earlier
kept item. -/
theorem dedupPass_distinct : ∀ (l : List Item) (seenH seenN : List String),
    List.Pairwise (fun x y => normalize_title y.title ≠ normalize_title x.title
        ∧ ratioGe96 (normalize_title y.title) (normalize_title x.title) = false)
      (dedupPass l seenH seenN)
    ∧ ∀ y ∈ dedupPass l seenH seenN, ∀ nrm ∈ seenN,
        normalize_title y.title ≠ nrm ∧ ratioGe96 (normalize_title y.title) nrm = false := by
  intro l
  induction l with
  | nil => intro seenH seenN; exact ⟨List.Pairwise.nil, by simp [dedupPass]⟩
  | cons it rest ih =>
    intro seenH seenN
    unfold dedupPass
    split_ifs with h1 h2
    · exact ih seenH seenN
    · exact ih seenH seenN
    · push_neg at h2
      have hall : ∀ nrm ∈ seenN,
          ratioGe96 (normalize_title it.title) nrm = false := by
        intro nrm hnrm
        by_contra hne
        exact h2.2 (List.any_eq_true.mpr
          ⟨nrm, hnrm, by simpa using hne⟩)
      obtain ⟨ihp, ihinv⟩ := ih (exactKey it :: seenH) (normalize_title it.title :: seenN)
      constructor
      · refine List.Pairwise.cons ?_ ihp
        intro y hy
        exact ihinv y hy (normalize_title it.title) (List.mem_cons_self _ _)
      · intro y hy nrm hnrm
        rcases List.mem_cons.mp hy with rfl | hy'
        · refine ⟨?_, hall nrm hnrm⟩
          intro he
          exact h2.1 (he ▸ hnrm)
        · exact ihinv y hy' nrm (List.mem_cons_of_mem _ hnrm)

/-- A two-item pass with distinct exact keys, distinct normalized titles
and sub-threshold similarity keeps both items. -/
theorem dedupPass_pair (x y : Item) (hk : exactKey y ≠ exactKey x)
    (hn : normalize_title y.title ≠ normalize_title x.title)
    (hr : ratioGe96 (normalize_title y.title) (normalize_title x.title) = false) :
    dedupPass [x, y] [] [] = [x, y] := by
  simp [dedupPass, hk, hn, hr]

-- ------------------------------------------------------------------
-- C8: near-duplicate collapse and survival
-- ------------------------------------------------------------------

/-- C8: (a) no two distinct items kept by the deduplicator have equal
normalized titles or similarity ratio ≥ 0.96 (so of any two candidates
that are that similar, at most one is kept); (b) two items with distinct
exact keys whose normalized titles have similarity ratio strictly below
0.96 both survive deduplication. -/
theorem C8_near_dup_collapse :
    (∀ items : List Item,
        List.Pairwise (fun x y => normalize_title y.title ≠ normalize_title x.title
            ∧ ratioGe96 (normalize_title y.title) (normalize_title x.title) = false)
          (dedupe items))
      ∧ (∀ a b : Item, exactKey a ≠ exactKey b →
          ratioGe96 (normalize_title b.title) (normalize_title a.title) = false →
          ratioGe96 (normalize_title a.title) (normalize_title b.title) = false →
          a ∈ dedupe [a, b] ∧ b ∈ dedupe [a, b] ∧ (dedupe [a, b]).length = 2) := by
  constructor
  · intro items
    exact (dedupPass_distinct (sortDesc items) [] []).1
  · intro a b hk hr1 hr2
    have hn1 : normalize_title b.title ≠ normalize_title a.title := by
      intro he
      rw [he, ratioGe96_self] at hr1
      exact Bool.noConfusion hr1
    have hn2 : normalize_title a.title ≠ normalize_title b.title := fun he => hn1 he.symm
    have hsort : sortDesc [a, b] = [a, b] ∨ sortDesc [a, b] = [b, a] := by
      simp only [sortDesc, insertDesc]
      split_ifs <;> simp
    have hout : dedupe [a, b] = [a, b] ∨ dedupe [a, b] = [b, a] := by
      unfold dedupe
      rcases hsort with h | h
      · rw [h, dedupPass_pair a b (fun he => hk he.symm) hn1 hr1]
        exact Or.inl rfl
      · rw [h, dedupPass_pair b a hk hn2 hr2]
        exact Or.inr rfl
    rcases hout with h | h <;> rw [h] <;> refine ⟨by simp, by simp, rfl⟩

/-- C8 witness: concrete dissimilar items (normalized titles `fire` and
`flood zz`, ratio 2·1/(4+8) < 0.96) both survive. -/
theorem C8_near_dup_collapse_witness :
    c8ItemFire ∈ dedupe [c8ItemFire, c8ItemFlood]
      ∧ c8ItemFlood ∈ dedupe [c8ItemFire, c8ItemFlood]
      ∧ (dedupe [c8ItemFire, c8ItemFlood]).length = 2 :=
  C8_near_dup_collapse.2 c8ItemFire c8ItemFlood (by decide) (by rfl) (by rfl)

-- ------------------------------------------------------------------
-- C9: the urgent flag influences neither priority nor inclusion
-- ------------------------------------------------------------------

/-- `setUrgent` leaves the sort key unchanged. -/
theorem sortKey_setUrgent (it : Item) (u : Bool) : sortKey (setUrgent it u) = sortKey it := rfl

/-- `setUrgent` leaves the exact dedup key unchanged. -/
theorem exactKey_setUrgent (it : Item) (u : Bool) : exactKey (setUrgent it u) = exactKey it := rfl

/-- `setUrgent` leaves the title unchanged. -/
theorem title_setUrgent (it : Item) (u : Bool) : (setUrgent it u).title = it.title := rfl

/-- Stable descending insertion commutes with reassigning urgent flags. -/
theorem insertDesc_setUrgent (g : Item → Bool) (x : Item) :
    ∀ l : List Item,
      insertDesc (setUrgent x (g x)) (l.map (fun it => setUrgent it (g it)))
        = (insertDesc x l).map (fun it => setUrgent it (g it)) := by
  intro l
  induction l with
  | nil => rfl
  | cons y ys ih =>
    simp only [List.map_cons, insertDesc, sortKey_setUrgent]
    cases h : keyGeB (sortKey x) (sortKey y) with
    | true => simp [h]
    | false => simp [h, ih]

/-- The dedup sort commutes with reassigning urgent flags. -/
theorem sortDesc_setUrgent (g : Item → Bool) :
    ∀ l : List Item,
      sortDesc (l.map (fun it => setUrgent it (g it)))
        = (sortDesc l).map (fun it => setUrgent it (g it)) := by
  intro l
  induction l with
  | nil => rfl
  | cons x xs ih =>
    simp only [List.map_cons, sortDesc, ih, insertDesc_setUrgent]

/-- The streaming dedup pass commutes with reassigning urgent flags. -/
theorem dedupPass_setUrgent (g : Item → Bool) :
    ∀ (l : List Item) (seenH seenN : List String),
      dedupPass (l.map (fun it => setUrgent it (g it))) seenH seenN
        = (dedupPass l seenH seenN).map (fun it => setUrgent it (g it)) := by
  intro l
  induction l with
  | nil => intro seenH seenN; rfl
  | cons it rest ih =>
    intro seenH seenN
    simp only [List.map_cons, dedupPass, exactKey_setUrgent, title_setUrgent]
    split_ifs with h1 h2
    · exact ih seenH seenN
    · exact ih seenH seenN
    · simp only [List.map_cons, ih]

/-- C9: (a) for every kept entry the assigned priority is `to_priority`
of the score and the keep decision is exactly the score-only test
`prio ≠ 0 ∧ score ≥ MIN_SCORE_TO_INCLUDE`; (b) reassigning urgent flags
arbitrarily commutes with deduplication (membership and order are
untouched); (c) the serialized feed entries are identical under any
urgent reassignment — the urgent flag is display-only. -/
theorem C9_urgent_display_only :
    (∀ (e : Entry) (clock : ℚ) (it : Item), processEntry e clock = some it →
        it.priority = to_priority it.score
          ∧ ¬(to_priority it.score = 0 ∨ it.score < MIN_SCORE_TO_INCLUDE))
      ∧ (∀ (items : List Item) (g : Item → Bool),
          dedupe (items.map (fun it => setUrgent it (g it)))
            = (dedupe items).map (fun it => setUrgent it (g it)))
      ∧ (∀ (items : List Item) (replay : ℕ) (reseed nowStr : String) (now : ℚ)
            (g : Item → Bool),
          buildFeedEntries (items.map (fun it => setUrgent it (g it))) replay reseed now nowStr
            = buildFeedEntries items replay reseed now nowStr) := by
  refine ⟨?_, ?_, ?_⟩
  · intro e clock it h
    unfold processEntry at h
    split_ifs at h with g1 g2 g3
    dsimp only at h
    split_ifs at h with g4
    obtain rfl := Option.some.inj h
    exact ⟨rfl, g4⟩
  · intro items g
    unfold dedupe
    rw [sortDesc_setUrgent, dedupPass_setUrgent]
  · intro items replay reseed nowStr now g
    unfold buildFeedEntries
    have key : ∀ (n : ℕ) (its : List Item),
        List.enumFrom n (its.map (fun it => setUrgent it (g it)))
          = (List.enumFrom n its).map (fun p => (p.1, setUrgent p.2 (g p.2))) := by
      intro n its
      induction its generalizing n with
      | nil => rfl
      | cons x xs ih => simp [List.enumFrom, ih]
    show List.filterMap _ (List.enum (items.map fun it => setUrgent it (g it))) = _
    rw [List.enum, key]
    generalize List.enumFrom 0 items = l
    induction l with
    | nil => rfl
    | cons p ps ih =>
      simp only [List.map_cons, List.filterMap_cons]
      rcases p with ⟨n, x⟩
      by_cases hx : x.priority = 1 ∨ x.priority = 2 ∨ x.priority = 3
      · rw [if_pos hx, if_pos]
        · simp only [ih]
          rfl
        · exact hx
      · rw [if_neg hx, if_neg]
        · exact ih
        · exact hx

/-- C9 witness: a concrete kept entry's priority is `to_priority` of its
score and its keep decision passed the score-only test. -/
theorem C9_urgent_display_only_witness :
    c9ResultItem.priority = to_priority c9ResultItem.score
      ∧ ¬(to_priority c9ResultItem.score = 0
          ∨ c9ResultItem.score < MIN_SCORE_TO_INCLUDE) :=
  C9_urgent_display_only.1 c9Entry 0 c9ResultItem (by
    norm_num [processEntry, is_emea_relevant, incidentScore_eq, totalScore, hazardScore,
      baseScore, meteoSeverity, watchlistBonus, qBoost, recencyBonus, to_priority,
      P1_THRESHOLD, P2_THRESHOLD, P3_THRESHOLD, MIN_SCORE_TO_INCLUDE,
      REQUIRE_METEO_ORANGE, GEO_STRICT, c9Entry, c9ResultItem]
    decide)
